import Mathlib

/-!
Shallow embedding of `src/sqlmesh/core/constants.py`: the daemon-detection
function `is_daemon_process` and the module-level computation of
`MAX_FORK_WORKERS`.

The OS introspection primitives the Python code reads (`os.getppid()`,
`os.getsid(0)`, `os.getpid()`, `os.isatty`) and the state of `sys.stdout`
are passed explicitly as inputs.  Fallible Python calls are modelled with
`Except`: `is_daemon_process` can raise `OSError` (the diagnostic print at
line 85 calls `sys.stdout.fileno()` outside any exception handler), and the
module-level `MAX_FORK_WORKERS` block can raise a `ValueError` (its
`except TypeError` clause does not catch `ValueError` from `int(...)` on a
non-integer string).
-/

namespace Sqlmesh

/-- A Python `OSError` raised by an OS-level query (`fileno`, `isatty`). -/
inductive OSErr
  | mk
  deriving DecidableEq, Repr

/-- Decidable equality for `Except`, needed to evaluate the embedded
functions on concrete inputs. -/
instance {ε α : Type} [DecidableEq ε] [DecidableEq α] :
    DecidableEq (Except ε α) := fun x y =>
  match x, y with
  | Except.ok a, Except.ok b =>
    if h : a = b then isTrue (by rw [h])
    else isFalse (by intro hh; injection hh; contradiction)
  | Except.error a, Except.error b =>
    if h : a = b then isTrue (by rw [h])
    else isFalse (by intro hh; injection hh; contradiction)
  | Except.ok _, Except.error _ => isFalse (by intro hh; exact Except.noConfusion hh)
  | Except.error _, Except.ok _ => isFalse (by intro hh; exact Except.noConfusion hh)

/-- The state of `sys.stdout` as observed by `is_daemon_process`:

* `hasFileno` — whether the stream object has a `fileno` attribute
  (`hasattr(sys.stdout, "fileno")`); `sys.stdout = None` is modelled with
  `hasFileno = false` since `hasattr(None, "fileno")` is `False`.
* `fileno` — the result of calling `sys.stdout.fileno()`: either a
  descriptor or an `OSError`.  The Python code calls `fileno()` twice
  (line 85 and line 98); the stream is modelled as deterministic, so both
  calls yield the same result.  Irrelevant when `hasFileno = false`. -/
structure Stdout where
  hasFileno : Bool
  fileno : Except OSErr Int
  deriving DecidableEq, Repr

/-- The OS introspection primitives read by `is_daemon_process`:
`os.getppid()`, `os.getsid(0)`, `os.getpid()`, and `os.isatty` on a given
descriptor (which may raise `OSError`). -/
structure OSEnv where
  getppid : Int
  getsid0 : Int
  getpid : Int
  isatty : Int → Except OSErr Bool

/-- `is_daemon_process` (constants.py lines 36-104).

Control flow of the Python body:

1. Diagnostic prints (lines 70-85).  When `sys.stdout` has a `fileno`
   attribute, the print at line 85 evaluates `sys.stdout.fileno()` with no
   surrounding `try`, so an `OSError` raised there propagates to the
   caller before any classification happens.
2. Line 91: `if os.getppid() == 1 or os.getsid(0) == os.getpid(): return True`.
3. Lines 96-101: if `sys.stdout` has a `fileno` attribute,
   `return not os.isatty(sys.stdout.fileno())`, with `OSError` from that
   expression caught and converted to `return True`.
4. Line 104: otherwise `return False`. -/
def is_daemon_process (env : OSEnv) (stdout : Stdout) : Except OSErr Bool :=
  (if stdout.hasFileno then stdout.fileno.map (fun _ => ()) else Except.ok ()).bind
    fun _ =>
      if env.getppid = 1 ∨ env.getsid0 = env.getpid then
        Except.ok true
      else if stdout.hasFileno then
        match stdout.fileno.bind env.isatty with
        | Except.ok b => Except.ok (!b)
        | Except.error _ => Except.ok true
      else
        Except.ok false

/-- Accumulate a list of decimal digit characters into a natural number,
as Python `int` does for a digit string. -/
def pyNatOfDigits (ds : List Char) : Nat :=
  ds.foldl (fun a c => a * 10 + (c.toNat - 48)) 0

/-- Whitespace characters stripped by Python `int(str)` before parsing. -/
def isPySpace (c : Char) : Bool :=
  c == ' ' || c == '\t' || c == '\n' || c == '\r' || c == '\x0b' || c == '\x0c'

/-- Strip leading and trailing whitespace from a character list. -/
def pyStrip (cs : List Char) : List Char :=
  ((cs.dropWhile isPySpace).reverse.dropWhile isPySpace).reverse

/-- Python `int(s)` on a string: strip surrounding whitespace, allow one
optional sign, then require a nonempty run of decimal digits.  `none`
models the `ValueError` raised on anything else. -/
def pyParseInt (s : String) : Option Int :=
  match pyStrip s.toList with
  | [] => none
  | '+' :: rest =>
    if rest.isEmpty then none
    else if rest.all Char.isDigit then some (Int.ofNat (pyNatOfDigits rest))
    else none
  | '-' :: rest =>
    if rest.isEmpty then none
    else if rest.all Char.isDigit then some (-(Int.ofNat (pyNatOfDigits rest)))
    else none
  | cs =>
    if cs.all Char.isDigit then some (Int.ofNat (pyNatOfDigits cs))
    else none

/-- The exceptions the module-level `MAX_FORK_WORKERS` block can raise:
a `ValueError` escaping `int(...)` on a present but non-integer variable
(only `TypeError` is caught), or an `OSError` escaping the call to
`is_daemon_process()`. -/
inductive PyError
  | valueError
  | osError (e : OSErr)
  deriving DecidableEq, Repr

/-- The module-level computation of `MAX_FORK_WORKERS`
(constants.py lines 107-118):

```
if hasattr(os, "fork") and not is_daemon_process():
    try:
        MAX_FORK_WORKERS = int(os.getenv("MAX_FORK_WORKERS"))
    except TypeError:
        MAX_FORK_WORKERS = (
            len(os.sched_getaffinity(0)) if hasattr(os, "sched_getaffinity") else None
        )
else:
    MAX_FORK_WORKERS = 1
```

Inputs: `hasFork` is `hasattr(os, "fork")`; `envVar` is
`os.getenv("MAX_FORK_WORKERS")` (`none` when unset); `affinity` is
`len(os.sched_getaffinity(0))` when `os` has `sched_getaffinity`, else
`none`.  When the variable is unset, `int(None)` raises `TypeError`, which
is caught and triggers the affinity fallback; when it is set but does not
parse, `int` raises `ValueError`, which the clause does not catch. -/
def computeMaxForkWorkers (hasFork : Bool) (env : OSEnv) (stdout : Stdout)
    (envVar : Option String) (affinity : Option Nat) :
    Except PyError (Option Int) :=
  if hasFork then
    match is_daemon_process env stdout with
    | Except.error e => Except.error (PyError.osError e)
    | Except.ok true => Except.ok (some 1)
    | Except.ok false =>
      match envVar with
      | none => Except.ok (affinity.map Int.ofNat)
      | some s =>
        match pyParseInt s with
        | some n => Except.ok (some n)
        | none => Except.error PyError.valueError
  else
    Except.ok (some 1)

/-- A stdout stream whose `fileno()` raises `OSError` on every call. -/
def brokenStdout : Stdout :=
  { hasFileno := true, fileno := Except.error OSErr.mk }

/-- A stdout stream with no `fileno` attribute (e.g. a logging proxy, or
`sys.stdout = None`). -/
def noFilenoStdout : Stdout :=
  { hasFileno := false, fileno := Except.ok 0 }

/-- A stdout stream whose `fileno()` returns descriptor 5. -/
def fdStdout : Stdout :=
  { hasFileno := true, fileno := Except.ok 5 }

/-- An environment whose ancestry does not indicate a daemon
(`ppid = 2 ≠ 1`, `sid = 3 ≠ 4 = pid`) and where every descriptor reports
as an interactive terminal. -/
def ttyEnv : OSEnv :=
  { getppid := 2, getsid0 := 3, getpid := 4, isatty := fun _ => Except.ok true }

/-- Like `ttyEnv`, but `os.isatty` raises `OSError` on every descriptor. -/
def isattyErrEnv : OSEnv :=
  { getppid := 2, getsid0 := 3, getpid := 4,
    isatty := fun _ => Except.error OSErr.mk }

/-- An environment re-parented to init: `ppid = 1`. -/
def initEnv : OSEnv :=
  { getppid := 1, getsid0 := 3, getpid := 4, isatty := fun _ => Except.ok true }

/-- A session-leader environment: `sid = pid = 7`, `ppid = 2 ≠ 1`. -/
def sessionLeaderEnv : OSEnv :=
  { getppid := 2, getsid0 := 7, getpid := 7, isatty := fun _ => Except.ok true }

/-- The string "abc", a present but non-integer value for the
`MAX_FORK_WORKERS` environment variable. -/
def strAbc : String := "abc"

/-- The string "0", which parses as the integer zero. -/
def strZero : String := "0"

/-- The string "7", a valid integer override. -/
def strSeven : String := "7"

end Sqlmesh

namespace Sqlmesh

/-- Claim C10: whenever `sys.stdout` has a `fileno` accessor and calling
`fileno()` raises an `OSError`, `is_daemon_process` propagates that error
to its caller before performing any classification — for every combination
of parent process id, session id and process id (including `ppid = 1` and
`sid = pid`) — because the diagnostic print at the top of the function
calls `sys.stdout.fileno()` outside any exception handler; no boolean is
returned. -/
theorem c10_fileno_error_propagates (env : OSEnv) (e : OSErr) :
    is_daemon_process env { hasFileno := true, fileno := Except.error e } =
      Except.error e :=
  rfl

/-- Claim C1 counterexample: with non-daemon ancestry (`ppid = 2`,
`sid = 3 ≠ 4 = pid`) and a stdout whose `fileno()` raises `OSError`,
`is_daemon_process` propagates the error instead of returning `true`:
the claim that the error is always caught internally is false. -/
theorem c1_counterexample :
    is_daemon_process ttyEnv brokenStdout = Except.error OSErr.mk ∧
    is_daemon_process ttyEnv brokenStdout ≠ Except.ok true :=
  ⟨rfl, by decide⟩

/-- Claim C1 (amended): an `OSError` raised inside the guarded
terminal-attachment check of lines 96-101 (here, from `os.isatty`) is
caught and converted to `true`; the unguarded `fileno()` call in the
diagnostic print at line 85 must itself succeed for the function to get
that far. -/
theorem c1_error_swallowed_in_tty_check (env : OSEnv) (fd : Int) (e : OSErr)
    (hpp : env.getppid ≠ 1) (hs : env.getsid0 ≠ env.getpid)
    (hat : env.isatty fd = Except.error e) :
    is_daemon_process env { hasFileno := true, fileno := Except.ok fd } =
      Except.ok true := by
  simp [is_daemon_process, hpp, hs, hat, Except.bind, Except.map]

/-- Claim C1 witness: the amended claim holds at the concrete environment
whose `os.isatty` raises on every descriptor. -/
theorem c1_error_swallowed_in_tty_check_witness :
    isattyErrEnv.isatty 5 = Except.error OSErr.mk ∧
    is_daemon_process isattyErrEnv fdStdout = Except.ok true :=
  ⟨rfl, c1_error_swallowed_in_tty_check isattyErrEnv 5 OSErr.mk (by decide)
    (by decide) rfl⟩

/-- Claim C2 counterexample: with `ppid = 2 ≠ 1`, `sid = 3 ≠ 4 = pid` and a
stdout exposing no `fileno` accessor, `is_daemon_process` returns `false`
(line 104), not the conservative `true` the claim states. -/
theorem c2_counterexample :
    is_daemon_process ttyEnv noFilenoStdout = Except.ok false ∧
    is_daemon_process ttyEnv noFilenoStdout ≠ Except.ok true :=
  ⟨by decide, by decide⟩

/-- Claim C2 (amended): when the parent process id is not the init
sentinel, the session id does not equal the process id, and stdout exposes
no `fileno` accessor, `is_daemon_process` returns `false` (the final
`return False` at line 104), not `true`. -/
theorem c2_no_fileno_returns_false (env : OSEnv) (fl : Except OSErr Int)
    (hpp : env.getppid ≠ 1) (hs : env.getsid0 ≠ env.getpid) :
    is_daemon_process env { hasFileno := false, fileno := fl } =
      Except.ok false := by
  simp [is_daemon_process, hpp, hs, Except.bind, Except.map]

/-- Claim C2 witness: the amended claim holds at the concrete non-daemon
environment with a fileno-less stdout. -/
theorem c2_no_fileno_returns_false_witness :
    ttyEnv.getppid ≠ 1 ∧ ttyEnv.getsid0 ≠ ttyEnv.getpid ∧
    is_daemon_process ttyEnv noFilenoStdout = Except.ok false :=
  ⟨by decide, by decide,
    c2_no_fileno_returns_false ttyEnv (Except.ok 0) (by decide) (by decide)⟩

/-- Claim C3 counterexample: with forking supported, a non-daemon process,
and the environment variable set to the non-integer string "abc", the
`MAX_FORK_WORKERS` computation fails with a `ValueError` (the
`except TypeError` clause does not catch it) instead of falling back. -/
theorem c3_counterexample :
    computeMaxForkWorkers true ttyEnv fdStdout (some strAbc) (some 8) =
      Except.error PyError.valueError := by
  decide

/-- Claim C3 (amended): assuming forking is supported and the process is
not a daemon, an *absent* `MAX_FORK_WORKERS` variable is non-fatal —
`int(None)` raises `TypeError`, which is caught and triggers the
CPU-affinity fallback (or `None` when affinity is unavailable) — but a
*present* non-integer value makes `int(...)` raise `ValueError`, which is
not caught, so the computation fails. -/
theorem c3_env_absent_falls_back_present_invalid_raises (env : OSEnv)
    (stdout : Stdout) (affinity : Option Nat) (s : String)
    (hd : is_daemon_process env stdout = Except.ok false)
    (hs : pyParseInt s = none) :
    computeMaxForkWorkers true env stdout none affinity =
        Except.ok (affinity.map Int.ofNat) ∧
    computeMaxForkWorkers true env stdout (some s) affinity =
        Except.error PyError.valueError := by
  constructor <;> simp [computeMaxForkWorkers, hd, hs]

/-- Claim C3 witness: the amended claim holds at the concrete non-daemon
environment, affinity count 8 and the unparseable string "abc". -/
theorem c3_env_absent_falls_back_present_invalid_raises_witness :
    is_daemon_process ttyEnv fdStdout = Except.ok false ∧
    pyParseInt strAbc = none ∧
    (computeMaxForkWorkers true ttyEnv fdStdout none (some 8) =
        Except.ok (some 8) ∧
     computeMaxForkWorkers true ttyEnv fdStdout (some strAbc) (some 8) =
        Except.error PyError.valueError) :=
  ⟨rfl, by decide,
    c3_env_absent_falls_back_present_invalid_raises ttyEnv fdStdout (some 8)
      strAbc rfl (by decide)⟩

end Sqlmesh

namespace Sqlmesh

/-- Claim C4 counterexample: with `ppid = 1` but a stdout whose `fileno()`
raises `OSError`, `is_daemon_process` propagates the error from the
diagnostic print instead of returning `true`, so the claim does not hold
for every standard-output state. -/
theorem c4_counterexample :
    initEnv.getppid = 1 ∧
    is_daemon_process initEnv brokenStdout = Except.error OSErr.mk ∧
    is_daemon_process initEnv brokenStdout ≠ Except.ok true :=
  ⟨rfl, rfl, by decide⟩

/-- Claim C4 (amended): for every session id, process id and every
standard-output state whose `fileno` access does not raise (either no
`fileno` accessor, or `fileno()` returns a descriptor), if the parent
process id equals the init sentinel 1 then `is_daemon_process` returns
`true`. -/
theorem c4_ppid_init_daemon (env : OSEnv) (st : Stdout)
    (hpp : env.getppid = 1)
    (hok : st.hasFileno = true → ∃ fd, st.fileno = Except.ok fd) :
    is_daemon_process env st = Except.ok true := by
  rcases st with ⟨hf, fl⟩
  cases hf
  · simp [is_daemon_process, hpp, Except.bind, Except.map]
  · obtain ⟨fd, hfd⟩ := hok rfl
    simp only at hfd
    simp [is_daemon_process, hpp, hfd, Except.bind, Except.map]

/-- Claim C4 witness: the amended claim holds at the init-reparented
environment with a working descriptor. -/
theorem c4_ppid_init_daemon_witness :
    initEnv.getppid = 1 ∧ is_daemon_process initEnv fdStdout = Except.ok true :=
  ⟨rfl, c4_ppid_init_daemon initEnv fdStdout rfl (fun _ => ⟨5, rfl⟩)⟩

/-- Claim C5 counterexample: with `sid = pid = 7` and `ppid = 2 ≠ 1` but a
stdout whose `fileno()` raises `OSError`, `is_daemon_process` propagates
the error from the diagnostic print instead of returning `true`, so the
claim does not hold regardless of the standard-output state. -/
theorem c5_counterexample :
    sessionLeaderEnv.getsid0 = sessionLeaderEnv.getpid ∧
    sessionLeaderEnv.getppid ≠ 1 ∧
    is_daemon_process sessionLeaderEnv brokenStdout = Except.error OSErr.mk ∧
    is_daemon_process sessionLeaderEnv brokenStdout ≠ Except.ok true :=
  ⟨rfl, by decide, rfl, by decide⟩

/-- Claim C5 (amended): when the session id equals the process id and the
parent process id is not the init sentinel, `is_daemon_process` returns
`true` for every standard-output state whose `fileno` access does not raise
(either no `fileno` accessor, or `fileno()` returns a descriptor). -/
theorem c5_session_leader_daemon (env : OSEnv) (st : Stdout)
    (hsid : env.getsid0 = env.getpid) (_hpp : env.getppid ≠ 1)
    (hok : st.hasFileno = true → ∃ fd, st.fileno = Except.ok fd) :
    is_daemon_process env st = Except.ok true := by
  rcases st with ⟨hf, fl⟩
  cases hf
  · simp [is_daemon_process, hsid, Except.bind, Except.map]
  · obtain ⟨fd, hfd⟩ := hok rfl
    simp only at hfd
    simp [is_daemon_process, hsid, hfd, Except.bind, Except.map]

/-- Claim C5 witness: the amended claim holds at the session-leader
environment with a working descriptor. -/
theorem c5_session_leader_daemon_witness :
    sessionLeaderEnv.getsid0 = sessionLeaderEnv.getpid ∧
    is_daemon_process sessionLeaderEnv fdStdout = Except.ok true :=
  ⟨rfl, c5_session_leader_daemon sessionLeaderEnv fdStdout rfl (by decide)
    (fun _ => ⟨5, rfl⟩)⟩

/-- Claim C6: when the parent process id is not the init sentinel, the
session id differs from the process id, and stdout yields a descriptor
without error, `is_daemon_process` returns the negation of the terminal
query: `false` when `os.isatty` reports a terminal, `true` when it reports
a non-terminal. -/
theorem c6_tty_check (env : OSEnv) (fd : Int) (b : Bool)
    (hpp : env.getppid ≠ 1) (hs : env.getsid0 ≠ env.getpid)
    (hat : env.isatty fd = Except.ok b) :
    is_daemon_process env { hasFileno := true, fileno := Except.ok fd } =
      Except.ok (!b) := by
  simp [is_daemon_process, hpp, hs, hat, Except.bind, Except.map]

/-- Claim C6 witness: at the concrete non-daemon environment whose
descriptor reports as a terminal, `is_daemon_process` returns `false`. -/
theorem c6_tty_check_witness :
    ttyEnv.isatty 5 = Except.ok true ∧
    is_daemon_process ttyEnv fdStdout = Except.ok false :=
  ⟨rfl, c6_tty_check ttyEnv 5 true (by decide) (by decide) rfl⟩

/-- Claim C7: `MAX_FORK_WORKERS` equals exactly 1 whenever the platform
does not support forking or `is_daemon_process` returns `true`. -/
theorem c7_limit_one (hasFork : Bool) (env : OSEnv) (st : Stdout)
    (envVar : Option String) (affinity : Option Nat)
    (h : hasFork = false ∨ is_daemon_process env st = Except.ok true) :
    computeMaxForkWorkers hasFork env st envVar affinity =
      Except.ok (some 1) := by
  rcases h with h | h
  · simp [computeMaxForkWorkers, h]
  · cases hasFork
    · simp [computeMaxForkWorkers]
    · simp [computeMaxForkWorkers, h]

/-- Claim C7 witness: with forking supported but the init-reparented
environment classified as a daemon, the limit is 1 even though the
environment variable is a valid override. -/
theorem c7_limit_one_witness :
    is_daemon_process initEnv fdStdout = Except.ok true ∧
    computeMaxForkWorkers true initEnv fdStdout (some strSeven) (some 8) =
      Except.ok (some 1) :=
  ⟨rfl, c7_limit_one true initEnv fdStdout (some strSeven) (some 8) (Or.inr rfl)⟩

/-- Claim C8: when the `MAX_FORK_WORKERS` environment variable is set to a
valid integer string, the platform supports forking, and
`is_daemon_process` returns `false`, `MAX_FORK_WORKERS` equals the parsed
integer value of that variable. -/
theorem c8_env_override (env : OSEnv) (st : Stdout) (s : String) (n : Int)
    (affinity : Option Nat)
    (hd : is_daemon_process env st = Except.ok false)
    (hp : pyParseInt s = some n) :
    computeMaxForkWorkers true env st (some s) affinity = Except.ok (some n) := by
  simp [computeMaxForkWorkers, hd, hp]

/-- Claim C8 witness: at the concrete non-daemon environment with the
variable set to "7", the limit is 7. -/
theorem c8_env_override_witness :
    is_daemon_process ttyEnv fdStdout = Except.ok false ∧
    pyParseInt strSeven = some 7 ∧
    computeMaxForkWorkers true ttyEnv fdStdout (some strSeven) (some 8) =
      Except.ok (some 7) :=
  ⟨rfl, by decide, c8_env_override ttyEnv fdStdout strSeven 7 (some 8) rfl
    (by decide)⟩

/-- Claim C9 counterexample: with forking supported, a non-daemon process
and the environment variable set to "0", `MAX_FORK_WORKERS` is computed as
0, which is neither `None` nor a positive integer. -/
theorem c9_counterexample :
    computeMaxForkWorkers true ttyEnv fdStdout (some strZero) (some 8) =
      Except.ok (some 0) ∧ ¬ (1 ≤ (0 : Int)) :=
  ⟨by decide, by decide⟩

/-- Claim C9 (amended): when the environment variable is unset and any
available CPU-affinity count is positive, the computed `MAX_FORK_WORKERS`
is either `None` (unbounded) or a positive integer — in particular it is 1
when forking is unsupported or the process is a daemon, and the affinity
count otherwise; an explicit environment override, however, can make it
zero or negative. -/
theorem c9_positive_or_unbounded_without_override (hasFork : Bool)
    (env : OSEnv) (st : Stdout) (affinity : Option Nat)
    (haff : ∀ n, affinity = some n → 0 < n) (r : Option Int)
    (hr : computeMaxForkWorkers hasFork env st none affinity = Except.ok r) :
    r = none ∨ ∃ k, r = some k ∧ 1 ≤ k := by
  cases hasFork with
  | false =>
    unfold computeMaxForkWorkers at hr
    simp at hr
    exact Or.inr ⟨1, hr.symm, by norm_num⟩
  | true =>
    unfold computeMaxForkWorkers at hr
    rcases hds : is_daemon_process env st with e | d
    · rw [hds] at hr
      simp at hr
    · rw [hds] at hr
      cases d
      · simp at hr
        cases affinity with
        | none => left; simp at hr; exact hr.symm
        | some n =>
          right
          refine ⟨(n : Int), ?_, ?_⟩
          · simp at hr
            exact hr.symm
          · have := haff n rfl
            omega
      · simp at hr
        exact Or.inr ⟨1, hr.symm, by norm_num⟩

/-- Claim C9 witness: the amended claim holds with forking unsupported,
where the computed limit is 1. -/
theorem c9_positive_or_unbounded_without_override_witness :
    (some (1 : Int) = none ∨ ∃ k, some (1 : Int) = some k ∧ 1 ≤ k) :=
  c9_positive_or_unbounded_without_override false ttyEnv fdStdout none
    (fun _ h => nomatch h) (some 1) rfl

end Sqlmesh
